import Mathlib

/-
Shallow embedding of the bootstrap / trust-establishment logic of
rekall_agent/config_updater.py (class AgentServerInitialize): key and
certificate provisioning (generate_keys), configuration assembly
(_build_config, modelled as build_config), configuration writing
(write_config) and the top-level orchestration (collect).

The Crypto Provider is an external collaborator, so keys are abstract
identifiers (Nat) and a certificate records which key signed it; signature
verification compares the recorded signing key with the public key it is
checked against. File system state is the fixed set of well-known files in
the configuration directory, each `Option` (none = absent or unreadable,
which the source observes as IOError). Per-run randomness (fresh keys, the
process-wide shared secret drawn at class-definition time, the clock) is an
explicit `Entropy` argument.
-/

namespace RekallAgent

/-- Public half of a private key. The concrete derivation is inside the
external Crypto Provider, so it is modelled as the identity on abstract
key identifiers. -/
def publicKeyOf (k : Nat) : Nat := k

/-- X509 certificate: binds a subject name to a public key and records the
issuer subject together with the public key of the key that signed it
(the model of the issuer signature). -/
structure Cert where
  subject : String
  issuer : String
  pubKey : Nat
  issuerPub : Nat
  deriving DecidableEq, Repr

/-- Model of X509Ceritifcate.get_public_key: the subject public key
embedded in the certificate. -/
def Cert.get_public_key (c : Cert) : Nat := c.pubKey

/-- Model of X509Ceritifcate.verify(public_key): the signature on the
certificate checks out against the given issuer public key. In the source
a failure raises; callers of this model test the Bool and fail. -/
def Cert.verify (c : Cert) (issuerPublic : Nat) : Bool :=
  c.issuerPub == issuerPublic

/-- Model of crypto.MakeCACert: a self-signed CA certificate over the
fresh CA private key. -/
def MakeCACert (caPrivateKey : Nat) : Cert :=
  { subject := "CA", issuer := "CA",
    pubKey := publicKeyOf caPrivateKey,
    issuerPub := publicKeyOf caPrivateKey }

/-- Model of crypto.MakeCASignedCert: a certificate over the server key,
signed by the CA private key. -/
def MakeCASignedCert (name : String) (serverPrivateKey : Nat)
    (caCert : Cert) (caPrivateKey : Nat) : Cert :=
  { subject := name, issuer := caCert.subject,
    pubKey := publicKeyOf serverPrivateKey,
    issuerPub := publicKeyOf caPrivateKey }

/-- Model of RSAPrivateKey.sign: a signature is the signing key paired
with the signed data. -/
def rsaSign (privateKey : Nat) (data : String) : Nat × String :=
  (privateKey, data)

/-- Modelled from the spec: the client half of the Configuration
(rekall_agent.config.agent is not under src/); fields are the ones
write_config and _build_config assign. -/
structure ClientPolicy where
  labels : List String := []
  secret : String := ""
  writeback_path : String := ""
  deriving DecidableEq, Repr

/-- Modelled from the spec: the server half of the Configuration; only the
certificate and private key fields are relevant to the claims. -/
structure ServerPolicy where
  certificate : Option Cert := none
  private_key : Option Nat := none
  deriving DecidableEq, Repr

/-- Modelled from the spec: the startup manifest _build_config assembles
(a live-API session plus one startup action whose ticket expires a year
from now). -/
structure Manifest where
  rekall_session_live : String := "API"
  startup_location_expiration : Nat := 0
  deriving DecidableEq, Repr

/-- Canonical serialization of a Manifest (Manifest.to_json). -/
def Manifest.to_json (m : Manifest) : String :=
  m.rekall_session_live ++ "|" ++ toString m.startup_location_expiration

/-- Modelled from the spec: the signed manifest: serialized manifest bytes,
the server certificate, and a signature over the bytes. -/
structure SignedManifest where
  data : String
  server_certificate : Option Cert := none
  signature : Option (Nat × String) := none
  deriving DecidableEq, Repr

/-- Modelled from the spec: agent.Configuration (not under src/); a fresh
Configuration has every field at its default, mirroring
agent.Configuration(session=...). -/
structure Configuration where
  ca_certificate : Option Cert := none
  server : ServerPolicy := {}
  client : ClientPolicy := {}
  manifest : Option Manifest := none
  signed_manifest : Option SignedManifest := none
  deriving DecidableEq, Repr

/-- Errors the bootstrap can abort with. ioWrite models an IOError raised
by open(..., "wb") (propagates uncaught out of generate_keys' except
blocks); verificationFailure models X509Ceritifcate.verify raising;
attributeError models list.add raising AttributeError in _build_config;
pluginError is the PluginError raised by collect's directory precheck;
runtimeError is write_config's RuntimeError when the written config does
not re-parse. -/
inductive Err where
  | ioWrite
  | verificationFailure
  | attributeError
  | pluginError
  | runtimeError
  deriving DecidableEq, Repr

/-- State of the configuration directory: the fixed, well-known files,
plus whether the directory itself is readable / writable. A `none` file is
absent or unreadable (reads raise IOError); writes raise IOError when the
directory is not writable. The client config file carries the
do-not-edit warning flag together with the serialized projection. -/
structure Dir where
  readable : Bool := true
  writable : Bool := true
  caKey : Option Nat := none
  caCert : Option Cert := none
  serverKey : Option Nat := none
  serverCert : Option Cert := none
  serverConfig : Option Configuration := none
  clientConfig : Option (Bool × Configuration) := none
  deriving DecidableEq, Repr

/-- An empty, accessible configuration directory. -/
def emptyDir : Dir := {}

/-- Per-run randomness and clock: the fresh CA and server private keys the
Crypto Provider would generate, the process-wide shared secret
(os.urandom(5).encode("hex"), drawn once per process), and time.time(). -/
structure Entropy where
  caFresh : Nat
  serverFresh : Nat
  secret : String
  now : Nat
  deriving DecidableEq, Repr

/-- Plugin arguments: the label list (default ["All"]) and the client
writeback path. -/
structure Args where
  labels : List String := ["All"]
  client_writeback_path : String := "/etc/rekall/agent.local.json"
  deriving DecidableEq, Repr

/-- Default plugin arguments. -/
def defaultArgs : Args := {}

/-- In-memory result of generate_keys: the fields the method leaves on
self (ca_cert, server_private_key, server_cert) plus the CA private key
local variable that _build_config's caller context no longer needs but the
server phase does. -/
structure GenOut where
  ca_private_key : Nat
  ca_cert : Cert
  server_private_key : Nat
  server_cert : Cert
  deriving DecidableEq, Repr

/-- CA phase of generate_keys (config_updater.py lines 85-113): try to
read the CA private key, then the CA certificate; on IOError from either
read, generate a fresh key, write it, build a self-signed CA certificate
and write it. Reuse happens only when both files are readable. -/
def caPhase (e : Entropy) (d : Dir) : Dir × Except Err (Nat × Cert) :=
  match d.caKey, d.caCert with
  | some k, some c => (d, .ok (k, c))
  | _, _ =>
    if d.writable then
      let k := e.caFresh
      let c := MakeCACert k
      ({ d with caKey := some k, caCert := some c }, .ok (k, c))
    else
      (d, .error .ioWrite)

/-- Server phase of generate_keys (lines 115-152): same reuse-or-generate
policy over the server private key and server certificate; a fresh
certificate is CA-signed over the fixed server identity string. -/
def serverPhase (e : Entropy) (caPrivateKey : Nat) (caCert : Cert) (d : Dir) :
    Dir × Except Err (Nat × Cert) :=
  match d.serverKey, d.serverCert with
  | some sk, some sc => (d, .ok (sk, sc))
  | _, _ =>
    if d.writable then
      let sk := e.serverFresh
      let sc := MakeCASignedCert "Rekall Agent Server" sk caCert caPrivateKey
      ({ d with serverKey := some sk, serverCert := some sc }, .ok (sk, sc))
    else
      (d, .error .ioWrite)

/-- generate_keys (lines 83-155): CA phase, then server phase, then the
unconditional final verification of the server certificate against the CA
certificate's public key (line 155 runs after both the reuse and the
generation branches, and after any writes). -/
def generate_keys (e : Entropy) (d : Dir) : Dir × Except Err GenOut :=
  match caPhase e d with
  | (d1, .error er) => (d1, .error er)
  | (d1, .ok (k, c)) =>
    match serverPhase e k c d1 with
    | (d2, .error er) => (d2, .error er)
    | (d2, .ok (sk, sc)) =>
      if sc.verify c.get_public_key then
        (d2, .ok ⟨k, c, sk, sc⟩)
      else
        (d2, .error .verificationFailure)

/-- Model of _build_config (lines 157-204), base class: attach the CA certificate;
then `if "All" not in labels: labels.add("All")` - plugin labels are a
Python list (type="Array", default ["All"]), and list has no `add` method,
so the branch raises AttributeError whenever "All" is absent; otherwise
attach the server certificate and private key, the client labels, the
process-wide secret and the writeback path, build the manifest (startup
ticket expiring a year from now) and sign its serialization with the
server private key. -/
def build_config (a : Args) (e : Entropy) (g : GenOut) (config : Configuration) :
    Except Err Configuration :=
  let config := { config with ca_certificate := some g.ca_cert }
  if "All" ∈ a.labels then
    let config := { config with
      server := { config.server with
        certificate := some g.server_cert,
        private_key := some g.server_private_key },
      client := { config.client with
        labels := a.labels,
        secret := e.secret,
        writeback_path := a.client_writeback_path } }
    let m : Manifest := { startup_location_expiration := e.now + 60 * 60 * 24 * 365 }
    let config := { config with manifest := some m }
    let sm : SignedManifest :=
      { data := m.to_json,
        server_certificate := some g.server_cert,
        signature := some (rsaSign g.server_private_key m.to_json) }
    .ok { config with signed_manifest := some sm }
  else
    .error .attributeError

/-- Projection performed by write_config (lines 233-236): a fresh
Configuration that receives only the client policy and the CA
certificate of the server configuration. -/
def deriveClientConfig (config : Configuration) : Configuration :=
  { client := config.client, ca_certificate := config.ca_certificate }

/-- write_config (lines 206-253): if the server config file is readable it
is loaded and reused verbatim; only when absent is a new Configuration
assembled via build_config and written. On either path the client
projection is then written (with the do-not-edit warning), and finally the
server config file is re-parsed; an unparsable result raises RuntimeError. -/
def write_config (a : Args) (e : Entropy) (g : GenOut) (d : Dir) :
    Dir × Except Err Configuration :=
  match d.serverConfig with
  | some config =>
    if d.writable then
      let d1 := { d with clientConfig := some (true, deriveClientConfig config) }
      match d1.serverConfig with
      | some reloaded => (d1, .ok reloaded)
      | none => (d1, .error .runtimeError)
    else
      (d, .error .ioWrite)
  | none =>
    match build_config a e g {} with
    | .error er => (d, .error er)
    | .ok config =>
      if d.writable then
        let d1 := { d with serverConfig := some config,
                           clientConfig := some (true, deriveClientConfig config) }
        match d1.serverConfig with
        | some reloaded => (d1, .ok reloaded)
        | none => (d1, .error .runtimeError)
      else
        (d, .error .ioWrite)

/-- write_manifest (lines 255-266): publishes the signed manifest through
the deployment policy's external location (a cloud bucket or, for the HTTP
variant, nowhere); it does not touch the configuration directory. -/
def write_manifest (config : Configuration) : Option SignedManifest :=
  config.signed_manifest

/-- collect (lines 269-282): raise PluginError unless
os.access(config_dir, os.R_OK) - the precheck tests READ access even
though its message says "Unable to write" - then run generate_keys,
write_config and write_manifest in order, each fatal on failure. -/
def collect (a : Args) (e : Entropy) (d : Dir) :
    Dir × Except Err (Configuration × Option SignedManifest) :=
  if d.readable then
    match generate_keys e d with
    | (d1, .error er) => (d1, .error er)
    | (d1, .ok g) =>
      match write_config a e g d1 with
      | (d2, .error er) => (d2, .error er)
      | (d2, .ok config) => (d2, .ok (config, write_manifest config))
  else
    (d, .error .pluginError)

/-- Manifest assembled by a fresh bootstrap run (normal form used to state
idempotence). -/
def freshManifest (e : Entropy) : Manifest :=
  { startup_location_expiration := e.now + 60 * 60 * 24 * 365 }

/-- Server certificate generated by a fresh bootstrap run. -/
def freshServerCert (e : Entropy) : Cert :=
  MakeCASignedCert "Rekall Agent Server" e.serverFresh (MakeCACert e.caFresh) e.caFresh

/-- Configuration assembled by a fresh bootstrap run (normal form of
build_config over a fresh Configuration when "All" is among the labels). -/
def freshConfig (a : Args) (e : Entropy) : Configuration :=
  { ca_certificate := some (MakeCACert e.caFresh),
    server := { certificate := some (freshServerCert e),
                private_key := some e.serverFresh },
    client := { labels := a.labels, secret := e.secret,
                writeback_path := a.client_writeback_path },
    manifest := some (freshManifest e),
    signed_manifest := some
      { data := (freshManifest e).to_json,
        server_certificate := some (freshServerCert e),
        signature := some (rsaSign e.serverFresh (freshManifest e).to_json) } }

/-- Directory state after a successful fresh bootstrap run on an empty
directory. -/
def freshDir (a : Args) (e : Entropy) : Dir :=
  { caKey := some e.caFresh, caCert := some (MakeCACert e.caFresh),
    serverKey := some e.serverFresh, serverCert := some (freshServerCert e),
    serverConfig := some (freshConfig a e),
    clientConfig := some (true, deriveClientConfig (freshConfig a e)) }

/-! Helper lemmas about the phases of generate_keys. -/

/-- Helper: the CA phase reuses both files when both are readable. -/
theorem caPhase_reuse (e : Entropy) (d : Dir) (k : Nat) (c : Cert)
    (hck : d.caKey = some k) (hcc : d.caCert = some c) :
    caPhase e d = (d, .ok (k, c)) := by
  unfold caPhase
  rw [hck, hcc]

/-- Helper: the CA phase regenerates and overwrites whenever the CA private
key is unreadable, regardless of whether a CA certificate is present. -/
theorem caPhase_gen (e : Entropy) (d : Dir)
    (hw : d.writable = true) (hck : d.caKey = none) :
    caPhase e d =
      ({ d with caKey := some e.caFresh, caCert := some (MakeCACert e.caFresh) },
       .ok (e.caFresh, MakeCACert e.caFresh)) := by
  unfold caPhase
  rw [hck]
  cases hcc : d.caCert <;> simp [hw]

/-- Helper: the server phase reuses both files when both are readable. -/
theorem serverPhase_reuse (e : Entropy) (k : Nat) (c : Cert) (d : Dir)
    (sk : Nat) (sc : Cert)
    (hsk : d.serverKey = some sk) (hsc : d.serverCert = some sc) :
    serverPhase e k c d = (d, .ok (sk, sc)) := by
  unfold serverPhase
  rw [hsk, hsc]

/-- Helper: the server phase generates, writes the key, then writes the
CA-signed certificate, whenever the server private key is unreadable. -/
theorem serverPhase_gen (e : Entropy) (k : Nat) (c : Cert) (d : Dir)
    (hw : d.writable = true) (hsk : d.serverKey = none) :
    serverPhase e k c d =
      ({ d with serverKey := some e.serverFresh,
                serverCert := some (MakeCASignedCert "Rekall Agent Server" e.serverFresh c k) },
       .ok (e.serverFresh, MakeCASignedCert "Rekall Agent Server" e.serverFresh c k)) := by
  unfold serverPhase
  rw [hsk]
  cases hsc : d.serverCert <;> simp [hw]

/-- Helper: the server phase never touches the CA files. -/
theorem serverPhase_preserves_ca (e : Entropy) (k : Nat) (c : Cert) (d : Dir) :
    (serverPhase e k c d).1.caKey = d.caKey ∧ (serverPhase e k c d).1.caCert = d.caCert := by
  unfold serverPhase
  cases hsk : d.serverKey <;> cases hsc : d.serverCert <;> cases hw : d.writable <;> simp

/-- Helper: a bootstrap run over an empty directory generates everything
and succeeds, leaving the fresh artifacts behind. -/
theorem collect_fresh (a : Args) (e : Entropy) (hAll : "All" ∈ a.labels) :
    collect a e emptyDir =
      (freshDir a e, .ok (freshConfig a e, write_manifest (freshConfig a e))) := by
  simp [collect, generate_keys, caPhase, serverPhase, write_config, build_config,
        emptyDir, freshDir, freshConfig, freshServerCert, freshManifest,
        deriveClientConfig, write_manifest, MakeCACert, MakeCASignedCert,
        Cert.verify, Cert.get_public_key, publicKeyOf, Manifest.to_json, rsaSign, hAll]

/-- Helper: a bootstrap run over a directory holding every artifact (with a
server certificate that verifies under the stored CA certificate) reuses
everything: it only rewrites the derived client document and returns the
stored configuration, independently of the run's entropy. -/
theorem collect_full_reuse (a : Args) (e : Entropy) (d : Dir) (cfg : Configuration)
    (k sk : Nat) (c sc : Cert)
    (hr : d.readable = true) (hw : d.writable = true)
    (hck : d.caKey = some k) (hcc : d.caCert = some c)
    (hsk : d.serverKey = some sk) (hsc : d.serverCert = some sc)
    (hcfg : d.serverConfig = some cfg)
    (hv : sc.verify c.get_public_key = true) :
    collect a e d =
      ({ d with clientConfig := some (true, deriveClientConfig cfg) },
       .ok (cfg, write_manifest cfg)) := by
  have hgen : generate_keys e d = (d, .ok ⟨k, c, sk, sc⟩) := by
    unfold generate_keys
    rw [caPhase_reuse e d k c hck hcc]
    simp only [serverPhase_reuse e k c d sk sc hsk hsc]
    simp [hv]
  unfold collect
  simp only [hr, if_true, hgen]
  simp [write_config, hcfg, hw]
  exact hr

/-! Claim C2: missing CA private key next to a present CA certificate. -/

/-- C2 counterexample: a directory holding a CA certificate (key 7) but no
CA private key does NOT make bootstrap fail: collect completes with .ok,
a fresh CA key pair is generated, and the existing CA certificate is
overwritten with a different one. There is no InconsistentArtifact error
anywhere in the code. -/
theorem ca_key_missing_no_failure :
    (∃ out, (collect defaultArgs ⟨1, 2, "s", 0⟩ { caCert := some (MakeCACert 7) }).2
      = .ok out) ∧
    (collect defaultArgs ⟨1, 2, "s", 0⟩ { caCert := some (MakeCACert 7) }).1.caKey
      = some 1 ∧
    (collect defaultArgs ⟨1, 2, "s", 0⟩ { caCert := some (MakeCACert 7) }).1.caCert
      = some (MakeCACert 1) ∧
    MakeCACert 1 ≠ MakeCACert 7 :=
  ⟨⟨_, rfl⟩, rfl, rfl, by decide⟩

/-- C2 (amended): for every writable directory whose CA private key file is
unreadable - in particular one that still holds a CA certificate - the CA
phase of generate_keys silently generates a fresh CA key pair and
overwrites the CA certificate file, and the rest of generate_keys keeps
those fresh CA files; no inconsistency error is raised. -/
theorem ca_silently_regenerated_when_key_missing (e : Entropy) (d : Dir)
    (hw : d.writable = true) (hck : d.caKey = none) :
    caPhase e d =
      ({ d with caKey := some e.caFresh, caCert := some (MakeCACert e.caFresh) },
       .ok (e.caFresh, MakeCACert e.caFresh)) ∧
    (generate_keys e d).1.caKey = some e.caFresh ∧
    (generate_keys e d).1.caCert = some (MakeCACert e.caFresh) := by
  have hca := caPhase_gen e d hw hck
  refine ⟨hca, ?_⟩
  have hpres := serverPhase_preserves_ca e e.caFresh (MakeCACert e.caFresh)
      { d with caKey := some e.caFresh, caCert := some (MakeCACert e.caFresh) }
  unfold generate_keys
  rw [hca]
  rcases hsp : serverPhase e e.caFresh (MakeCACert e.caFresh)
      { d with caKey := some e.caFresh, caCert := some (MakeCACert e.caFresh) } with ⟨d2, r2⟩
  rw [hsp] at hpres
  simp only [Prod.fst] at hpres
  rcases r2 with er | ⟨sk, sc⟩
  · simp [hsp, hpres.1, hpres.2]
  · cases hv : sc.verify (MakeCACert e.caFresh).get_public_key <;>
      simp [hsp, hv, hpres.1, hpres.2]

/-- C2 witness: the amended theorem applied to the concrete directory of
the counterexample. -/
theorem ca_silently_regenerated_when_key_missing_witness :
    (caPhase ⟨1, 2, "s", 0⟩ ({ caCert := some (MakeCACert 7) } : Dir) =
      ({ caKey := some 1, caCert := some (MakeCACert 1) },
       .ok (1, MakeCACert 1)) ∧
    (generate_keys ⟨1, 2, "s", 0⟩ ({ caCert := some (MakeCACert 7) } : Dir)).1.caKey
      = some 1 ∧
    (generate_keys ⟨1, 2, "s", 0⟩ ({ caCert := some (MakeCACert 7) } : Dir)).1.caCert
      = some (MakeCACert 1)) :=
  ca_silently_regenerated_when_key_missing ⟨1, 2, "s", 0⟩
    { caCert := some (MakeCACert 7) } rfl rfl

/-! Claim C10: the reuse path still verifies the loaded server certificate. -/

/-- C10: when all four key/cert files are readable, generate_keys writes
nothing (the directory is returned unchanged) and still ends with the
verification of the loaded server certificate against the loaded CA
certificate's public key, aborting with verificationFailure when it does
not check out. -/
theorem reuse_path_still_verifies (e : Entropy) (d : Dir) (k sk : Nat) (c sc : Cert)
    (hck : d.caKey = some k) (hcc : d.caCert = some c)
    (hsk : d.serverKey = some sk) (hsc : d.serverCert = some sc) :
    generate_keys e d =
      (d, if sc.verify c.get_public_key then .ok ⟨k, c, sk, sc⟩
          else .error .verificationFailure) := by
  unfold generate_keys
  rw [caPhase_reuse e d k c hck hcc]
  simp only [serverPhase_reuse e k c d sk sc hsk hsc]
  cases hv : sc.verify c.get_public_key <;> simp [hv]

/-- C10 witness: a directory whose stored server certificate was signed by
a different CA (key 9) than the stored CA pair (key 1): generate_keys
aborts with verificationFailure and leaves every file untouched. -/
theorem reuse_path_still_verifies_witness :
    generate_keys ⟨1, 2, "s", 0⟩
      ({ caKey := some 1, caCert := some (MakeCACert 1), serverKey := some 5,
         serverCert := some (MakeCASignedCert "Rekall Agent Server" 5 (MakeCACert 9) 9) } : Dir) =
      ({ caKey := some 1, caCert := some (MakeCACert 1), serverKey := some 5,
         serverCert := some (MakeCASignedCert "Rekall Agent Server" 5 (MakeCACert 9) 9) },
       .error .verificationFailure) := by
  have h := reuse_path_still_verifies ⟨1, 2, "s", 0⟩
    { caKey := some 1, caCert := some (MakeCACert 1), serverKey := some 5,
      serverCert := some (MakeCASignedCert "Rekall Agent Server" 5 (MakeCACert 9) 9) }
    1 5 (MakeCACert 1) (MakeCASignedCert "Rekall Agent Server" 5 (MakeCACert 9) 9)
    rfl rfl rfl rfl
  simpa using h

/-! Claim C3: when is the new server certificate verified, relative to the
writes, and does the reuse path skip verification. -/

/-- C3 counterexample: with a mismatched CA pair on disk (key 1 next to a
certificate over key 2) and no server files, generate_keys generates a
server certificate whose verification fails - yet the server private key
and server certificate files HAVE been written: verification runs after
persistence, and failure does not prevent the writes. -/
theorem server_files_written_despite_verify_failure :
    (generate_keys ⟨9, 5, "s", 0⟩
        ({ caKey := some 1, caCert := some (MakeCACert 2) } : Dir)).2
      = .error .verificationFailure ∧
    (generate_keys ⟨9, 5, "s", 0⟩
        ({ caKey := some 1, caCert := some (MakeCACert 2) } : Dir)).1.serverKey
      = some 5 ∧
    (generate_keys ⟨9, 5, "s", 0⟩
        ({ caKey := some 1, caCert := some (MakeCACert 2) } : Dir)).1.serverCert
      = some (MakeCASignedCert "Rekall Agent Server" 5 (MakeCACert 2) 1) :=
  ⟨rfl, rfl, rfl⟩

/-- C3 (amended): whenever a new server certificate is generated (CA pair
readable, server key file absent), the server private key and the
certificate are first written, and only then is the certificate verified
against the CA certificate's public key: a verification failure aborts the
bootstrap but leaves the freshly written files in place; moreover the same
final verification also runs on the server reuse path. -/
theorem server_cert_verified_only_after_write (e : Entropy) (d : Dir) (k : Nat) (c : Cert)
    (hw : d.writable = true) (hck : d.caKey = some k) (hcc : d.caCert = some c) :
    (d.serverKey = none →
      generate_keys e d =
        ({ d with serverKey := some e.serverFresh,
                  serverCert := some (MakeCASignedCert "Rekall Agent Server" e.serverFresh c k) },
         if (MakeCASignedCert "Rekall Agent Server" e.serverFresh c k).verify c.get_public_key
         then .ok ⟨k, c, e.serverFresh, MakeCASignedCert "Rekall Agent Server" e.serverFresh c k⟩
         else .error .verificationFailure)) ∧
    (∀ sk sc, d.serverKey = some sk → d.serverCert = some sc →
      generate_keys e d =
        (d, if sc.verify c.get_public_key then .ok ⟨k, c, sk, sc⟩
            else .error .verificationFailure)) := by
  constructor
  · intro hsk
    unfold generate_keys
    rw [caPhase_reuse e d k c hck hcc]
    simp only [serverPhase_gen e k c d hw hsk]
    cases hv : (MakeCASignedCert "Rekall Agent Server" e.serverFresh c k).verify
        c.get_public_key <;> simp [hv]
  · intro sk sc hsk hsc
    unfold generate_keys
    rw [caPhase_reuse e d k c hck hcc]
    simp only [serverPhase_reuse e k c d sk sc hsk hsc]
    cases hv : sc.verify c.get_public_key <;> simp [hv]

/-- C3 witness: the amended theorem applied to the counterexample's
directory: generation, write, then failing verification. -/
theorem server_cert_verified_only_after_write_witness :
    generate_keys ⟨9, 5, "s", 0⟩
        ({ caKey := some 1, caCert := some (MakeCACert 2) } : Dir) =
      ({ caKey := some 1, caCert := some (MakeCACert 2), serverKey := some 5,
         serverCert := some (MakeCASignedCert "Rekall Agent Server" 5 (MakeCACert 2) 1) },
       .error .verificationFailure) := by
  have h := (server_cert_verified_only_after_write ⟨9, 5, "s", 0⟩
      { caKey := some 1, caCert := some (MakeCACert 2) } 1 (MakeCACert 2) rfl rfl rfl).1 rfl
  simpa [MakeCASignedCert, MakeCACert, Cert.verify, Cert.get_public_key, publicKeyOf] using h

/-! Claim C4: a freshly generated CA does NOT force server regeneration. -/

/-- C4 counterexample: CA files absent (so the CA pair is freshly generated
with key 1) while readable stale server files exist (key 5, certificate
signed by the old CA key 9): the run ends with the stale server key still
on disk - not the fresh key 2 the run would have generated - and aborts
with verificationFailure instead of regenerating the server pair. -/
theorem stale_server_not_regenerated :
    (generate_keys ⟨1, 2, "s", 0⟩
        ({ serverKey := some 5,
           serverCert := some (MakeCASignedCert "Rekall Agent Server" 5 (MakeCACert 9) 9) } : Dir)).1.caKey
      = some 1 ∧
    (generate_keys ⟨1, 2, "s", 0⟩
        ({ serverKey := some 5,
           serverCert := some (MakeCASignedCert "Rekall Agent Server" 5 (MakeCACert 9) 9) } : Dir)).1.serverKey
      = some 5 ∧
    (5 : Nat) ≠ 2 ∧
    (generate_keys ⟨1, 2, "s", 0⟩
        ({ serverKey := some 5,
           serverCert := some (MakeCASignedCert "Rekall Agent Server" 5 (MakeCACert 9) 9) } : Dir)).2
      = .error .verificationFailure :=
  ⟨rfl, rfl, by decide, rfl⟩

/-- C4 (amended): when the CA pair is freshly generated in a run where
readable (stale) server key/cert files exist, generate_keys reuses the
stale server files instead of regenerating them, and - whenever the stale
certificate was not signed by the fresh CA key - aborts with
verificationFailure, leaving the stale server files as they were. -/
theorem stale_server_reused_under_fresh_ca (e : Entropy) (d : Dir) (sk : Nat) (sc : Cert)
    (hw : d.writable = true) (hck : d.caKey = none)
    (hsk : d.serverKey = some sk) (hsc : d.serverCert = some sc)
    (hmis : sc.issuerPub ≠ publicKeyOf e.caFresh) :
    generate_keys e d =
      ({ d with caKey := some e.caFresh, caCert := some (MakeCACert e.caFresh) },
       .error .verificationFailure) := by
  unfold generate_keys
  rw [caPhase_gen e d hw hck]
  have hsp := serverPhase_reuse e e.caFresh (MakeCACert e.caFresh)
      { d with caKey := some e.caFresh, caCert := some (MakeCACert e.caFresh) } sk sc hsk hsc
  simp only [hsp]
  have hv : sc.verify (MakeCACert e.caFresh).get_public_key = false := by
    simp [Cert.verify, MakeCACert, Cert.get_public_key, publicKeyOf]
    simpa [publicKeyOf] using hmis
  simp [hv]

/-- C4 witness: the amended theorem applied to the counterexample's
directory. -/
theorem stale_server_reused_under_fresh_ca_witness :
    generate_keys ⟨1, 2, "s", 0⟩
        ({ serverKey := some 5,
           serverCert := some (MakeCASignedCert "Rekall Agent Server" 5 (MakeCACert 9) 9) } : Dir) =
      ({ caKey := some 1, caCert := some (MakeCACert 1), serverKey := some 5,
         serverCert := some (MakeCASignedCert "Rekall Agent Server" 5 (MakeCACert 9) 9) },
       .error .verificationFailure) :=
  stale_server_reused_under_fresh_ca ⟨1, 2, "s", 0⟩
    { serverKey := some 5,
      serverCert := some (MakeCASignedCert "Rekall Agent Server" 5 (MakeCACert 9) 9) }
    5 (MakeCASignedCert "Rekall Agent Server" 5 (MakeCACert 9) 9)
    rfl rfl rfl rfl (by decide)

/-! Claim C7: a run of generate_keys that returns normally has a verified
chain of trust. -/

/-- C7: whenever generate_keys completes without raising, the server
certificate it leaves on self verifies against the public key of the CA
certificate it leaves on self: the unconditional final check raises before
returning in every other case. -/
theorem successful_generate_keys_verifies (e : Entropy) (d d' : Dir) (g : GenOut)
    (h : generate_keys e d = (d', .ok g)) :
    g.server_cert.verify g.ca_cert.get_public_key = true := by
  unfold generate_keys at h
  rcases hca : caPhase e d with ⟨d1, r1⟩
  rcases r1 with er | ⟨k, c⟩
  · simp [hca] at h
  · rcases hsp : serverPhase e k c d1 with ⟨d2, r2⟩
    rcases r2 with er | ⟨sk, sc⟩
    · simp [hca, hsp] at h
    · cases hv : sc.verify c.get_public_key
      · simp [hca, hsp, hv] at h
      · simp [hca, hsp, hv] at h
        obtain ⟨hd, hg⟩ := h
        subst hg
        simpa using hv

/-- C7 witness: the theorem applied to a successful fresh run on an empty
directory. -/
theorem successful_generate_keys_verifies_witness :
    Cert.verify (MakeCASignedCert "Rekall Agent Server" 2 (MakeCACert 1) 1)
      (Cert.get_public_key (MakeCACert 1)) = true :=
  successful_generate_keys_verifies ⟨1, 2, "s", 0⟩ emptyDir
    { caKey := some 1, caCert := some (MakeCACert 1), serverKey := some 2,
      serverCert := some (MakeCASignedCert "Rekall Agent Server" 2 (MakeCACert 1) 1) }
    ⟨1, MakeCACert 1, 2, MakeCASignedCert "Rekall Agent Server" 2 (MakeCACert 1) 1⟩ rfl

/-! Claim C5: the "All" label default. -/

/-- C5: evaluation at the failing inputs: for labels [] and ["foo"],
_build_config does not complete - `labels.add("All")` runs on a Python
list (plugin type="Array"), which has no add method, so the call raises
AttributeError instead of assembling a configuration with "All" added. -/
theorem build_config_crashes_without_all_label :
    build_config { labels := [] } ⟨1, 2, "s", 0⟩
        ⟨1, MakeCACert 1, 2, MakeCASignedCert "Rekall Agent Server" 2 (MakeCACert 1) 1⟩ {}
      = .error .attributeError ∧
    build_config { labels := ["foo"] } ⟨1, 2, "s", 0⟩
        ⟨1, MakeCACert 1, 2, MakeCASignedCert "Rekall Agent Server" 2 (MakeCACert 1) 1⟩ {}
      = .error .attributeError :=
  ⟨rfl, rfl⟩

/-! Claim C6: the client configuration document contains no server
secrets. -/

/-- C6: every client configuration document produced by write_config is
the projection of the server configuration onto the client policy and the
CA certificate; the server policy's private key and certificate (and the
manifest material) are absent from it. -/
theorem client_doc_has_no_server_material (a : Args) (e : Entropy) (g : GenOut)
    (d d' : Dir) (cfg : Configuration)
    (h : write_config a e g d = (d', .ok cfg)) :
    d'.clientConfig = some (true, deriveClientConfig cfg) ∧
    deriveClientConfig cfg =
      { client := cfg.client, ca_certificate := cfg.ca_certificate } ∧
    (deriveClientConfig cfg).server.private_key = none ∧
    (deriveClientConfig cfg).server.certificate = none ∧
    (deriveClientConfig cfg).manifest = none ∧
    (deriveClientConfig cfg).signed_manifest = none := by
  refine ⟨?_, rfl, rfl, rfl, rfl, rfl⟩
  unfold write_config at h
  cases hs : d.serverConfig with
  | some config =>
    by_cases hw : d.writable = true
    · simp only [hs, hw, if_true] at h
      simp only [Prod.mk.injEq, Except.ok.injEq] at h
      obtain ⟨hd, hc⟩ := h
      subst hd; subst hc
      rfl
    · simp only [hs] at h
      simp [hw] at h
  | none =>
    cases hb : build_config a e g {} with
    | error er => simp [hs, hb] at h
    | ok config =>
      by_cases hw : d.writable = true
      · simp only [hs, hb, hw, if_true] at h
        simp only [Prod.mk.injEq, Except.ok.injEq] at h
        obtain ⟨hd, hc⟩ := h
        subst hd; subst hc
        rfl
      · simp only [hs, hb] at h
        simp [hw] at h

/-- C6 witness: the theorem applied to a reuse-path run over a stored
default configuration. -/
theorem client_doc_has_no_server_material_witness :
    (({ serverConfig := some ({} : Configuration),
        clientConfig := some (true, deriveClientConfig {}) } : Dir).clientConfig
      = some (true, deriveClientConfig {})) ∧
    deriveClientConfig ({} : Configuration) =
      { client := ({} : Configuration).client,
        ca_certificate := ({} : Configuration).ca_certificate } ∧
    (deriveClientConfig ({} : Configuration)).server.private_key = none ∧
    (deriveClientConfig ({} : Configuration)).server.certificate = none ∧
    (deriveClientConfig ({} : Configuration)).manifest = none ∧
    (deriveClientConfig ({} : Configuration)).signed_manifest = none :=
  client_doc_has_no_server_material defaultArgs ⟨1, 2, "s", 0⟩
    ⟨1, MakeCACert 1, 2, MakeCACert 1⟩ { serverConfig := some {} }
    { serverConfig := some {}, clientConfig := some (true, deriveClientConfig {}) } {} rfl

/-! Claim C8: the writability precheck. -/

/-- C8: the precheck in collect tests READ access, not write access: a
readable but unwritable directory passes it and the run proceeds into
generate_keys, where the first file write raises IOError (so the failure
is neither upfront nor a PluginError); only an unreadable directory
triggers the upfront PluginError. -/
theorem collect_precheck_is_read_only :
    collect defaultArgs ⟨1, 2, "s", 0⟩ ({ writable := false } : Dir) =
      ({ writable := false }, .error .ioWrite) ∧
    collect defaultArgs ⟨1, 2, "s", 0⟩ ({ readable := false } : Dir) =
      ({ readable := false }, .error .pluginError) ∧
    Err.ioWrite ≠ Err.pluginError :=
  ⟨rfl, rfl, by decide⟩

/-! Claim C9: the client document is rewritten on every run that reaches
write_config. -/

/-- C9: evaluation at the failing input: a run reaching write_config with
no stored server config and labels ["foo"] aborts inside configuration
assembly (AttributeError) and the client configuration document is NOT
written; by contrast, on the reuse path the client document is written
(with the warning flag), re-derived from the stored server config. -/
theorem client_doc_skipped_on_label_crash :
    write_config { labels := ["foo"] } ⟨1, 2, "s", 0⟩
        ⟨1, MakeCACert 1, 2, MakeCASignedCert "Rekall Agent Server" 2 (MakeCACert 1) 1⟩
        emptyDir
      = (emptyDir, .error .attributeError) ∧
    emptyDir.clientConfig = none ∧
    (write_config { labels := ["foo"] } ⟨1, 2, "s", 0⟩
        ⟨1, MakeCACert 1, 2, MakeCASignedCert "Rekall Agent Server" 2 (MakeCACert 1) 1⟩
        ({ serverConfig := some {} } : Dir)).1.clientConfig
      = some (true, deriveClientConfig {}) :=
  ⟨rfl, rfl, rfl⟩

/-! Claim C1: idempotence of bootstrap. -/

/-- C1: a first bootstrap run against an empty directory populates it; a
second run against the populated directory reuses the existing key/cert
files and the existing server configuration verbatim (regenerating and
rewriting nothing, whatever its entropy), and a third run returns exactly
what the second did - in particular the CA certificate, the server
certificate and the shared secret are identical across runs two and
three. -/
theorem bootstrap_idempotent (a : Args) (e1 e2 e3 : Entropy) (hAll : "All" ∈ a.labels) :
    collect a e1 emptyDir =
      (freshDir a e1, .ok (freshConfig a e1, write_manifest (freshConfig a e1))) ∧
    collect a e2 (freshDir a e1) =
      (freshDir a e1, .ok (freshConfig a e1, write_manifest (freshConfig a e1))) ∧
    collect a e3 (collect a e2 (freshDir a e1)).1 = collect a e2 (freshDir a e1) ∧
    (collect a e3 (collect a e2 (freshDir a e1)).1).1.caCert
      = (collect a e2 (freshDir a e1)).1.caCert ∧
    (collect a e3 (collect a e2 (freshDir a e1)).1).1.serverCert
      = (collect a e2 (freshDir a e1)).1.serverCert ∧
    ((collect a e3 (collect a e2 (freshDir a e1)).1).1.serverConfig.map
        fun cfg => cfg.client.secret)
      = ((collect a e2 (freshDir a e1)).1.serverConfig.map
        fun cfg => cfg.client.secret) := by
  have h1 := collect_fresh a e1 hAll
  have hv : (freshServerCert e1).verify (MakeCACert e1.caFresh).get_public_key = true := by
    simp [freshServerCert, MakeCASignedCert, MakeCACert, Cert.verify,
          Cert.get_public_key, publicKeyOf]
  have h2 : collect a e2 (freshDir a e1) =
      (freshDir a e1, .ok (freshConfig a e1, write_manifest (freshConfig a e1))) := by
    have h := collect_full_reuse a e2 (freshDir a e1) (freshConfig a e1)
      e1.caFresh e1.serverFresh (MakeCACert e1.caFresh) (freshServerCert e1)
      rfl rfl rfl rfl rfl rfl rfl hv
    simpa [freshDir] using h
  have h3 : collect a e3 (freshDir a e1) =
      (freshDir a e1, .ok (freshConfig a e1, write_manifest (freshConfig a e1))) := by
    have h := collect_full_reuse a e3 (freshDir a e1) (freshConfig a e1)
      e1.caFresh e1.serverFresh (MakeCACert e1.caFresh) (freshServerCert e1)
      rfl rfl rfl rfl rfl rfl rfl hv
    simpa [freshDir] using h
  refine ⟨h1, h2, ?_, ?_, ?_, ?_⟩ <;> rw [h2] <;> simp [h3]

/-- C1 witness: the idempotence theorem at the default arguments and three
unrelated entropies. -/
theorem bootstrap_idempotent_witness :
    collect defaultArgs ⟨1, 2, "aa", 0⟩ emptyDir =
      (freshDir defaultArgs ⟨1, 2, "aa", 0⟩,
       .ok (freshConfig defaultArgs ⟨1, 2, "aa", 0⟩,
            write_manifest (freshConfig defaultArgs ⟨1, 2, "aa", 0⟩))) ∧
    collect defaultArgs ⟨3, 4, "bb", 7⟩ (freshDir defaultArgs ⟨1, 2, "aa", 0⟩) =
      (freshDir defaultArgs ⟨1, 2, "aa", 0⟩,
       .ok (freshConfig defaultArgs ⟨1, 2, "aa", 0⟩,
            write_manifest (freshConfig defaultArgs ⟨1, 2, "aa", 0⟩))) ∧
    collect defaultArgs ⟨5, 6, "cc", 9⟩
        (collect defaultArgs ⟨3, 4, "bb", 7⟩ (freshDir defaultArgs ⟨1, 2, "aa", 0⟩)).1
      = collect defaultArgs ⟨3, 4, "bb", 7⟩ (freshDir defaultArgs ⟨1, 2, "aa", 0⟩) ∧
    (collect defaultArgs ⟨5, 6, "cc", 9⟩
        (collect defaultArgs ⟨3, 4, "bb", 7⟩ (freshDir defaultArgs ⟨1, 2, "aa", 0⟩)).1).1.caCert
      = (collect defaultArgs ⟨3, 4, "bb", 7⟩ (freshDir defaultArgs ⟨1, 2, "aa", 0⟩)).1.caCert ∧
    (collect defaultArgs ⟨5, 6, "cc", 9⟩
        (collect defaultArgs ⟨3, 4, "bb", 7⟩ (freshDir defaultArgs ⟨1, 2, "aa", 0⟩)).1).1.serverCert
      = (collect defaultArgs ⟨3, 4, "bb", 7⟩ (freshDir defaultArgs ⟨1, 2, "aa", 0⟩)).1.serverCert ∧
    ((collect defaultArgs ⟨5, 6, "cc", 9⟩
        (collect defaultArgs ⟨3, 4, "bb", 7⟩ (freshDir defaultArgs ⟨1, 2, "aa", 0⟩)).1).1.serverConfig.map
        fun cfg => cfg.client.secret)
      = ((collect defaultArgs ⟨3, 4, "bb", 7⟩ (freshDir defaultArgs ⟨1, 2, "aa", 0⟩)).1.serverConfig.map
        fun cfg => cfg.client.secret) :=
  bootstrap_idempotent defaultArgs ⟨1, 2, "aa", 0⟩ ⟨3, 4, "bb", 7⟩ ⟨5, 6, "cc", 9⟩
    (by decide)

end RekallAgent
